import Mathlib

/-!
Shallow embedding of the PawWell Care Center authentication backend
(`backend/accounts/`: `models.py`, `serializers.py`, `views.py`).

The database is modelled as explicit lists of records; Django's
`objects.get` / `objects.filter` become `List.find?` / `List.filter`,
row updates become `List.map` with an id- or token-guarded update, and
`timezone.now()` becomes an explicit `now : Nat` parameter (seconds).
HTTP responses are modelled as an `ApiResponse` record carrying the
success flag, status code, message string and the extra payload fields.
Password hashing is modelled by an injective tagging function `hashPw`;
UUID tokens are modelled as opaque `Nat` values supplied by the caller
(the views receive the freshly generated token as a parameter).
-/

set_option autoImplicit false

/-- `accounts.models.User` (the fields the authentication logic reads). -/
structure UserRec where
  id : Nat
  email : String
  passwordHash : String
  email_verified : Bool
  is_active : Bool
  last_login : Option Nat
deriving Repr, DecidableEq

/-- `accounts.models.EmailVerification`. -/
structure EmailVerification where
  userId : Nat
  token : Nat
  created_at : Nat
  is_verified : Bool
  expires_at : Nat
deriving Repr, DecidableEq

/-- `accounts.models.PasswordReset`. -/
structure PasswordReset where
  userId : Nat
  token : Nat
  created_at : Nat
  is_used : Bool
  expires_at : Nat
deriving Repr, DecidableEq

/-- The relational store: users plus the two token tables. -/
structure DB where
  users : List UserRec
  verifications : List EmailVerification
  resets : List PasswordReset
deriving Repr, DecidableEq

/-- A DRF `Response`: success flag, HTTP status, message, extra fields. -/
structure ApiResponse where
  success : Bool
  status : Nat
  message : String
  fields : List (String × String)
deriving Repr, DecidableEq

/-- Django password hashing, modelled as an injective tagging function. -/
def hashPw (p : String) : String := "pbkdf2$" ++ p

/-- `user.set_password(p)` stores `hashPw p`; `user.check_password(p)`
compares the hash of the presented password with the stored hash. -/
def check_password (u : UserRec) (p : String) : Bool :=
  hashPw p == u.passwordHash

/-- `value.lower().strip()` from the serializers and views, spelled out on
the character list so that it evaluates inside the kernel. -/
def normalizeEmail (s : String) : String :=
  String.mk ((((s.data.map Char.toLower).dropWhile Char.isWhitespace).reverse.dropWhile
    Char.isWhitespace).reverse)

/-- `EmailVerification.is_expired`: `timezone.now() > self.expires_at`. -/
def EmailVerification.is_expired (v : EmailVerification) (now : Nat) : Bool :=
  decide (v.expires_at < now)

/-- `EmailVerification.verify` (models.py): if not expired, mark the token
verified and the owning user's email verified, save both, return `True`;
otherwise return `False`.  Returns the flag and the two saved records. -/
def EmailVerification.verify (v : EmailVerification) (now : Nat) (u : UserRec) :
    Bool × EmailVerification × UserRec :=
  if !(v.is_expired now) then
    (true, { v with is_verified := true }, { u with email_verified := true })
  else
    (false, v, u)

/-- `EmailVerification.objects.create(user=user)` together with the `save`
override that sets `expires_at = timezone.now() + timedelta(hours=24)`. -/
def EmailVerification.create (now uid tok : Nat) : EmailVerification :=
  { userId := uid, token := tok, created_at := now, is_verified := false,
    expires_at := now + 24 * 3600 }

/-- `PasswordReset.is_expired`: `timezone.now() > self.expires_at`. -/
def PasswordReset.is_expired (r : PasswordReset) (now : Nat) : Bool :=
  decide (r.expires_at < now)

/-- `PasswordReset.can_reset`: `not self.is_used and not self.is_expired()`. -/
def PasswordReset.can_reset (r : PasswordReset) (now : Nat) : Bool :=
  !r.is_used && !(r.is_expired now)

/-- `PasswordReset.objects.create(user=user)` together with the `save`
override that sets `expires_at = timezone.now() + timedelta(hours=1)`. -/
def PasswordReset.create (now uid tok : Nat) : PasswordReset :=
  { userId := uid, token := tok, created_at := now, is_used := false,
    expires_at := now + 3600 }

/-- `User.objects.get(email=email)` (first match by email). -/
def DB.findUserByEmail (db : DB) (email : String) : Option UserRec :=
  db.users.find? (fun u => u.email == email)

/-- Foreign-key dereference `verification.user` / `reset.user`. -/
def DB.findUserById (db : DB) (uid : Nat) : Option UserRec :=
  db.users.find? (fun u => u.id == uid)

/-- The email of the user a token points at (FKs always resolve in Django;
an unresolvable id yields the empty string in the model). -/
def DB.userEmail (db : DB) (uid : Nat) : String :=
  match db.findUserById uid with
  | some u => u.email
  | none => ""

/-- `EmailVerification.objects.get(token=token)`. -/
def DB.findVerification (db : DB) (tok : Nat) : Option EmailVerification :=
  db.verifications.find? (fun v => v.token == tok)

/-- `PasswordReset.objects.get(token=token)`. -/
def DB.findReset (db : DB) (tok : Nat) : Option PasswordReset :=
  db.resets.find? (fun r => r.token == tok)

/-! Response constants, one per literal `Response({...})` in views.py. -/

def invalidVerificationTokenResponse : ApiResponse :=
  { success := false, status := 404, message := "Invalid verification token.",
    fields := [] }

def alreadyVerifiedResponse : ApiResponse :=
  { success := false, status := 400,
    message := "Email already verified. You can now login.", fields := [] }

def expiredVerificationResponse : ApiResponse :=
  { success := false, status := 400,
    message := "Verification link has expired. Please register again or request a new verification link.",
    fields := [] }

def verifiedSuccessResponse (email : String) : ApiResponse :=
  { success := true, status := 200,
    message := "Email verified successfully! You can now login to your account.",
    fields := [("email", email)] }

def invalidCredentialsResponse : ApiResponse :=
  { success := false, status := 401, message := "Invalid email or password.",
    fields := [] }

def unverifiedEmailResponse : ApiResponse :=
  { success := false, status := 403,
    message := "Please verify your email before logging in. Check your inbox for the verification link.",
    fields := [] }

def deactivatedResponse : ApiResponse :=
  { success := false, status := 403,
    message := "Your account has been deactivated. Please contact support.",
    fields := [] }

def loginSuccessResponse (email : String) : ApiResponse :=
  { success := true, status := 200, message := "Login successful!",
    fields := [("user", email)] }

def forgotPasswordResponse : ApiResponse :=
  { success := true, status := 200,
    message := "If an account exists with this email, you will receive a password reset link shortly.",
    fields := [("instructions", "Please check your email inbox and spam folder.")] }

def invalidResetTokenResponse : ApiResponse :=
  { success := false, status := 404, message := "Invalid password reset token.",
    fields := [] }

def alreadyUsedResponse : ApiResponse :=
  { success := false, status := 400,
    message := "This password reset link has already been used.", fields := [] }

def expiredResetResponse : ApiResponse :=
  { success := false, status := 400,
    message := "This password reset link has expired. Please request a new one.",
    fields := [] }

def resetSuccessResponse : ApiResponse :=
  { success := true, status := 200,
    message := "Password reset successful! You can now login with your new password.",
    fields := [] }

def registrationSuccessResponse (email : String) (emailSent : Bool) : ApiResponse :=
  { success := true, status := 201,
    message := "Registration successful! Please check your email to verify your account.",
    fields := [("email", email),
               ("email_sent", if emailSent then "true" else "false"),
               ("instructions", "Check your email inbox and click the verification link to activate your account.")] }

/-- The `{'success': False, 'errors': serializer.errors}` envelope. -/
def validationErrorResponse : ApiResponse :=
  { success := false, status := 400, message := "", fields := [("errors", "validation")] }

def emailRequiredResponse : ApiResponse :=
  { success := false, status := 400, message := "Email is required.", fields := [] }

def resendAlreadyVerifiedResponse : ApiResponse :=
  { success := false, status := 400,
    message := "Email is already verified. You can login.", fields := [] }

def resendSuccessResponse (email : String) (emailSent : Bool) : ApiResponse :=
  { success := true, status := 200, message := "Verification email sent successfully!",
    fields := [("email", email),
               ("email_sent", if emailSent then "true" else "false")] }

def resendNotFoundResponse : ApiResponse :=
  { success := true, status := 200,
    message := "If an account exists with this email, you will receive a verification link shortly.",
    fields := [] }

/-! Registration input validation (`UserRegistrationSerializer`). -/

/-- A registration request body. -/
structure RegistrationInput where
  email : String
  password : String
  confirm_password : String
  first_name : String
  last_name : String
  phone_number : String
  user_type : String
deriving Repr, DecidableEq

/-- Character class `[a-zA-Z0-9._%+-]` of the email regex's local part. -/
def localChar (c : Char) : Bool :=
  c.isAlphanum || c == '.' || c == '_' || c == '%' || c == '+' || c == '-'

/-- Character class `[a-zA-Z0-9.-]` of the email regex's domain part. -/
def domainChar (c : Char) : Bool :=
  c.isAlphanum || c == '.' || c == '-'

/-- Split a character list at every occurrence of `sep` (Python
`str.split`, keeping empty segments). -/
def splitOnChar (sep : Char) : List Char → List (List Char)
  | [] => [[]]
  | c :: cs =>
    if c == sep then [] :: splitOnChar sep cs
    else
      match splitOnChar sep cs with
      | [] => [[c]]
      | r :: rs => (c :: r) :: rs

/-- Rejoin dot-separated segments (rebuilds the `[a-zA-Z0-9.-]+` prefix of
the domain from its dot-split form). -/
def joinDots : List (List Char) → List Char
  | [] => []
  | [x] => x
  | x :: xs => x ++ '.' :: joinDots xs

/-- Executable form of the anchored email regex
`[a-zA-Z0-9._%+-]+ @ [a-zA-Z0-9.-]+ \. [a-zA-Z]{2,}`: exactly one `@`,
non-empty local part over its class, and a domain whose final dot-separated
component is all-alphabetic of length at least 2 with a non-empty prefix
over the domain class (the final component must follow the last dot since
the top-level part admits no dot). -/
def emailFormatOk (s : String) : Bool :=
  match splitOnChar '@' s.data with
  | [l, dom] =>
    let segs := splitOnChar '.' dom
    match segs.getLast? with
    | some tld =>
      decide (0 < l.length) && l.all localChar &&
      decide (2 ≤ segs.length) &&
      (let d := joinDots segs.dropLast
       decide (0 < d.length) && d.all domainChar) &&
      decide (2 ≤ tld.length) && tld.all Char.isAlpha
    | none => false
  | _ => false

/-- `validate_email`: normalized email not already taken and well-formed. -/
def UserRegistrationSerializer.validate_email (db : DB) (raw : String) : Bool :=
  let value := normalizeEmail raw
  !(db.users.any (fun u => u.email == value)) && emailFormatOk value

/-- `validate_password`: at least 8 characters, one letter, one digit. -/
def validate_password (p : String) : Bool :=
  decide (8 ≤ p.length) && p.data.any (fun c => c.isAlpha) &&
  p.data.any (fun c => c.isDigit)

/-- `validate_phone_number`: optional; after stripping separators, an
optional `+` followed by 10 to 15 digits. -/
def validate_phone_number (v : String) : Bool :=
  if v == "" then true
  else
    let cleaned := v.data.filter (fun c => !(c.isWhitespace || c == '-' || c == '(' || c == ')'))
    let digits := match cleaned with
      | '+' :: ds => ds
      | ds => ds
    digits.all Char.isDigit && decide (10 ≤ digits.length) &&
      decide (digits.length ≤ 15)

/-- `UserRegistrationSerializer.is_valid()`: all field validators pass and
the two passwords match. -/
def UserRegistrationSerializer.is_valid (db : DB) (inp : RegistrationInput) : Bool :=
  UserRegistrationSerializer.validate_email db inp.email &&
  validate_password inp.password &&
  validate_phone_number inp.phone_number &&
  (inp.password == inp.confirm_password)

/-- `UserRegistrationSerializer.create`: a fresh user with hashed password,
`is_active = False` and `email_verified = False`. -/
def UserRegistrationSerializer.create (inp : RegistrationInput) (uid : Nat) : UserRec :=
  { id := uid, email := normalizeEmail inp.email,
    passwordHash := hashPw inp.password,
    email_verified := false, is_active := false, last_login := none }

/-! The view procedures (`views.py`). Each takes the clock, the store and
the request payload, and returns the updated store and the response.
Freshly generated ids/tokens and the notifier outcome come in as
parameters (the notifier is external, best-effort). -/

/-- `UserRegistrationView.post`. -/
def UserRegistrationView.post (now : Nat) (db : DB) (inp : RegistrationInput)
    (uid tok : Nat) (emailSent : Bool) : DB × ApiResponse :=
  if UserRegistrationSerializer.is_valid db inp then
    let user := UserRegistrationSerializer.create inp uid
    let verification := EmailVerification.create now uid tok
    ({ db with users := db.users ++ [user],
               verifications := verification :: db.verifications },
     registrationSuccessResponse user.email emailSent)
  else
    (db, validationErrorResponse)

/-- `EmailVerificationView.get`: not-found, already-verified and expired
checks in source order, then the consume-and-activate update. -/
def EmailVerificationView.get (now : Nat) (db : DB) (tok : Nat) : DB × ApiResponse :=
  match db.findVerification tok with
  | none => (db, invalidVerificationTokenResponse)
  | some verification =>
    if verification.is_verified then
      (db, alreadyVerifiedResponse)
    else if verification.is_expired now then
      (db, expiredVerificationResponse)
    else
      let db2 : DB := { db with
        verifications := db.verifications.map
          (fun v => if v.token == tok then { v with is_verified := true } else v),
        users := db.users.map
          (fun u => if u.id == verification.userId then
              { u with email_verified := true, is_active := true } else u) }
      (db2, verifiedSuccessResponse (db.userEmail verification.userId))

/-- `UserLoginView.post`: lookup, verified gate, active gate, password
check, then last-login update and success. -/
def UserLoginView.post (now : Nat) (db : DB) (rawEmail password : String) :
    DB × ApiResponse :=
  let email := normalizeEmail rawEmail
  match db.findUserByEmail email with
  | none => (db, invalidCredentialsResponse)
  | some user =>
    if !user.email_verified then
      (db, unverifiedEmailResponse)
    else if !user.is_active then
      (db, deactivatedResponse)
    else if !(check_password user password) then
      (db, invalidCredentialsResponse)
    else
      let db2 : DB := { db with
        users := db.users.map
          (fun u => if u.id == user.id then { u with last_login := some now } else u) }
      (db2, loginSuccessResponse user.email)

/-- `ForgotPasswordView.post`: issue a reset token when the user exists,
do nothing otherwise; the response is the same constant in both branches. -/
def ForgotPasswordView.post (now : Nat) (db : DB) (rawEmail : String) (tok : Nat) :
    DB × ApiResponse :=
  let email := normalizeEmail rawEmail
  match db.findUserByEmail email with
  | some user =>
    let db2 : DB := { db with resets := PasswordReset.create now user.id tok :: db.resets }
    (db2, forgotPasswordResponse)
  | none => (db, forgotPasswordResponse)

/-- `ResetPasswordView.post`: serializer validation, token lookup,
already-used and expired checks in source order, then the password update
and token consumption. -/
def ResetPasswordView.post (now : Nat) (db : DB) (tok : Nat)
    (newPassword confirm : String) : DB × ApiResponse :=
  if !(validate_password newPassword && newPassword == confirm) then
    (db, validationErrorResponse)
  else
    match db.findReset tok with
    | none => (db, invalidResetTokenResponse)
    | some reset =>
      if reset.is_used then
        (db, alreadyUsedResponse)
      else if reset.is_expired now then
        (db, expiredResetResponse)
      else
        let db2 : DB := { db with
          users := db.users.map
            (fun u => if u.id == reset.userId then
                { u with passwordHash := hashPw newPassword } else u),
          resets := db.resets.map
            (fun r => if r.token == tok then { r with is_used := true } else r) }
        (db2, resetSuccessResponse)

/-- `ResendVerificationEmailView.post`: required email, lookup, verified
check, then delete-all-then-issue-one; not-found answers with a generic
success message. -/
def ResendVerificationEmailView.post (now : Nat) (db : DB) (rawEmail : String)
    (tok : Nat) (emailSent : Bool) : DB × ApiResponse :=
  if rawEmail == "" then (db, emailRequiredResponse)
  else
    match db.findUserByEmail (normalizeEmail rawEmail) with
    | some user =>
      if user.email_verified then
        (db, resendAlreadyVerifiedResponse)
      else
        let db2 : DB := { db with
          verifications := db.verifications.filter (fun v => !(v.userId == user.id)) }
        let db3 : DB := { db2 with
          verifications := EmailVerification.create now user.id tok :: db2.verifications }
        (db3, resendSuccessResponse user.email emailSent)
    | none => (db, resendNotFoundResponse)

/-! Helper lemmas about row updates, and sample store contents used by the
witnesses and counterexamples. -/

/-- `find?` commutes with a row update that does not change the search key. -/
theorem find?_map_pres {α : Type} (g : α → α) (q : α → Bool)
    (hg : ∀ a, q (g a) = q a) (l : List α) :
    (l.map g).find? q = (l.find? q).map g := by
  induction l with
  | nil => rfl
  | cons a t ih =>
    cases h : q a with
    | true =>
      have h2 : q (g a) = true := by rw [hg]; exact h
      rw [List.map_cons, List.find?_cons_of_pos _ h2, List.find?_cons_of_pos _ h,
        Option.map_some']
    | false =>
      have h2 : ¬ q (g a) = true := by rw [hg, h]; exact Bool.false_ne_true
      rw [List.map_cons, List.find?_cons_of_neg _ h2,
        List.find?_cons_of_neg _ (by rw [h]; exact Bool.false_ne_true), ih]

/-- Filtering for a key right after deleting every row with that key
yields nothing. -/
theorem filter_after_delete {α : Type} (q : α → Bool) (l : List α) :
    (l.filter (fun a => !(q a))).filter q = [] := by
  induction l with
  | nil => rfl
  | cons a t ih =>
    cases h : q a with
    | true => simp [List.filter_cons, h, ih]
    | false => simp [List.filter_cons, h, ih]

/-- A registered but not yet verified user (id 1). -/
def userA : UserRec :=
  { id := 1, email := "a@x.com", passwordHash := hashPw "Passw0rd1",
    email_verified := false, is_active := false, last_login := none }

/-- A verified, active user (id 2). -/
def userV : UserRec :=
  { id := 2, email := "v@x.com", passwordHash := hashPw "Passw0rd1",
    email_verified := true, is_active := true, last_login := none }

/-- A verified but deactivated user (id 3). -/
def userD : UserRec :=
  { id := 3, email := "d@x.com", passwordHash := hashPw "Passw0rd1",
    email_verified := true, is_active := false, last_login := none }

/-- A fresh verification token for `userA`, issued at time 0. -/
def verifA : EmailVerification :=
  { userId := 1, token := 42, created_at := 0, is_verified := false,
    expires_at := 86400 }

/-- A verification token that was already consumed and has also expired. -/
def verifConsumedExpired : EmailVerification :=
  { userId := 1, token := 43, created_at := 0, is_verified := true,
    expires_at := 10 }

/-- A password-reset token for `userV` that has already been used. -/
def resetUsed : PasswordReset :=
  { userId := 2, token := 50, created_at := 0, is_used := true,
    expires_at := 3600 }

/-- An unused, unexpired password-reset token for `userV`. -/
def resetFresh : PasswordReset :=
  { userId := 2, token := 51, created_at := 0, is_used := false,
    expires_at := 3600 }

/-- Store with the unverified `userA` and their fresh verification token. -/
def dbA : DB := { users := [userA], verifications := [verifA], resets := [] }

/-- Store with `userA` and a consumed, expired verification token. -/
def dbB : DB :=
  { users := [userA], verifications := [verifConsumedExpired], resets := [] }

/-- Store with one user of each login-relevant state. -/
def dbLogin : DB :=
  { users := [userA, userV, userD], verifications := [], resets := [] }

/-- Store with `userV` and both reset tokens. -/
def dbReset : DB :=
  { users := [userV], verifications := [], resets := [resetUsed, resetFresh] }

/-- Store with no users at all. -/
def dbEmpty : DB := { users := [], verifications := [], resets := [] }

/-- C1 (amended): for every verification token, `verify()` on an unexpired
token marks the token verified and the owning user's email verified,
persists both and returns true, but leaves `is_active` unchanged (the
model method performs no activation); on an expired token it returns
false and changes neither record. -/
theorem claim_C1_verify (now : Nat) (v : EmailVerification) (u : UserRec) :
    (v.is_expired now = false →
      v.verify now u =
        (true, { v with is_verified := true }, { u with email_verified := true }) ∧
      (v.verify now u).2.2.is_active = u.is_active) ∧
    (v.is_expired now = true → v.verify now u = (false, v, u)) := by
  constructor
  · intro h
    simp [EmailVerification.verify, h]
  · intro h
    simp [EmailVerification.verify, h]

/-- C1, counterexample: on a concrete unexpired token whose owner is
inactive, `verify()` returns true and marks the email verified, yet the
user's `is_active` stays false — refuting the claim that `verify()`
activates the user. -/
theorem claim_C1_counterexample :
    (verifA.verify 0 userA).1 = true ∧
    (verifA.verify 0 userA).2.2.email_verified = true ∧
    (verifA.verify 0 userA).2.2.is_active = false := by decide

/-- C1, witness for the amended theorem at a concrete unexpired token. -/
theorem claim_C1_witness :
    verifA.verify 0 userA =
      (true, { verifA with is_verified := true },
       { userA with email_verified := true }) ∧
    (verifA.verify 0 userA).2.2.is_active = userA.is_active :=
  (claim_C1_verify 0 verifA userA).1 (by decide)

/-- C2 (amended): a verification token presented after `expires_at` never
yields success and leaves the store unchanged; when the token is not yet
consumed the result is the expired error, but the already-consumed check
precedes the expiry check, so an expired token that was already consumed
yields the already-verified error instead. -/
theorem claim_C2_expired_never_success (now : Nat) (db : DB) (tok : Nat)
    (v : EmailVerification)
    (hfind : db.findVerification tok = some v)
    (hexp : v.is_expired now = true) :
    (EmailVerificationView.get now db tok).1 = db ∧
    (EmailVerificationView.get now db tok).2.success = false ∧
    (v.is_verified = true →
      (EmailVerificationView.get now db tok).2 = alreadyVerifiedResponse) ∧
    (v.is_verified = false →
      (EmailVerificationView.get now db tok).2 = expiredVerificationResponse) := by
  unfold EmailVerificationView.get
  rw [hfind]
  cases hv : v.is_verified with
  | true => simp [hv, hexp, alreadyVerifiedResponse]
  | false => simp [hv, hexp, expiredVerificationResponse]

/-- C2, counterexample: a consumed token that expired at time 10, presented
at time 100, yields the already-verified error, not the expired error. -/
theorem claim_C2_counterexample :
    verifConsumedExpired.is_expired 100 = true ∧
    (EmailVerificationView.get 100 dbB 43).2 = alreadyVerifiedResponse ∧
    (EmailVerificationView.get 100 dbB 43).2 ≠ expiredVerificationResponse := by
  decide

/-- C2, witness for the amended theorem at the concrete consumed-and-expired
token of `dbB`. -/
theorem claim_C2_witness :
    (EmailVerificationView.get 100 dbB 43).1 = dbB ∧
    (EmailVerificationView.get 100 dbB 43).2.success = false ∧
    (verifConsumedExpired.is_verified = true →
      (EmailVerificationView.get 100 dbB 43).2 = alreadyVerifiedResponse) ∧
    (verifConsumedExpired.is_verified = false →
      (EmailVerificationView.get 100 dbB 43).2 = expiredVerificationResponse) :=
  claim_C2_expired_never_success 100 dbB 43 verifConsumedExpired (by decide) (by decide)

/-- A lookup that returns an already-consumed token makes the verification
endpoint answer with the already-verified error and leave the store as is. -/
theorem get_already_verified (now : Nat) (db : DB) (tok : Nat)
    (w : EmailVerification)
    (hfind : db.findVerification tok = some w) (hver : w.is_verified = true) :
    EmailVerificationView.get now db tok = (db, alreadyVerifiedResponse) := by
  unfold EmailVerificationView.get
  rw [hfind]
  simp [hver]

/-- C3: presenting a fresh, unexpired token first succeeds — the response
is the verified-success response and the stored user now has
`email_verified = true` and `is_active = true` — and presenting the same
token a second time yields the already-verified error while leaving the
store exactly as it was after the first call. -/
theorem claim_C3_double_verification (now1 now2 : Nat) (db : DB) (tok : Nat)
    (v : EmailVerification) (u : UserRec)
    (hfind : db.findVerification tok = some v)
    (hunused : v.is_verified = false)
    (hfresh : v.is_expired now1 = false)
    (huser : db.findUserById v.userId = some u) :
    (EmailVerificationView.get now1 db tok).2 = verifiedSuccessResponse u.email ∧
    (EmailVerificationView.get now1 db tok).1.findUserById v.userId =
      some { u with email_verified := true, is_active := true } ∧
    (EmailVerificationView.get now1 db tok).1.findVerification tok =
      some { v with is_verified := true } ∧
    EmailVerificationView.get now2 (EmailVerificationView.get now1 db tok).1 tok =
      ((EmailVerificationView.get now1 db tok).1, alreadyVerifiedResponse) := by
  have hfind2 : db.verifications.find? (fun w => w.token == tok) = some v := hfind
  have huser2 : db.users.find? (fun w => w.id == v.userId) = some u := huser
  have hvtok : (v.token == tok) = true :=
    @List.find?_some _ (fun w => w.token == tok) v db.verifications hfind2
  have huid : (u.id == v.userId) = true :=
    @List.find?_some _ (fun w => w.id == v.userId) u db.users huser2
  have hemail : db.userEmail v.userId = u.email := by
    unfold DB.userEmail
    rw [huser]
  have hget1 : EmailVerificationView.get now1 db tok =
      ({ db with
          verifications := db.verifications.map
            (fun w => if w.token == tok then { w with is_verified := true } else w),
          users := db.users.map
            (fun w => if w.id == v.userId then
                { w with email_verified := true, is_active := true } else w) },
       verifiedSuccessResponse u.email) := by
    unfold EmailVerificationView.get
    rw [hfind]
    simp [hunused, hfresh, hemail]
  have hfindv1 : (EmailVerificationView.get now1 db tok).1.findVerification tok =
      some { v with is_verified := true } := by
    rw [hget1]
    show (db.verifications.map
        (fun w => if w.token == tok then { w with is_verified := true } else w)).find?
        (fun w => w.token == tok) = some { v with is_verified := true }
    rw [find?_map_pres (fun w => if w.token == tok then { w with is_verified := true } else w)
      (fun w => w.token == tok)
      (fun a => by by_cases h : (a.token == tok) = true <;> simp [h]) db.verifications]
    rw [hfind2, Option.map_some']
    simp only [hvtok]
    rfl
  have hfindu1 : (EmailVerificationView.get now1 db tok).1.findUserById v.userId =
      some { u with email_verified := true, is_active := true } := by
    rw [hget1]
    show (db.users.map
        (fun w => if w.id == v.userId then
          { w with email_verified := true, is_active := true } else w)).find?
        (fun w => w.id == v.userId) =
      some { u with email_verified := true, is_active := true }
    rw [find?_map_pres (fun w => if w.id == v.userId then
          { w with email_verified := true, is_active := true } else w)
      (fun w => w.id == v.userId)
      (fun a => by by_cases h : (a.id == v.userId) = true <;> simp [h]) db.users]
    rw [huser2, Option.map_some']
    simp only [huid]
    rfl
  refine ⟨by rw [hget1], hfindu1, hfindv1, ?_⟩
  exact get_already_verified now2 (EmailVerificationView.get now1 db tok).1 tok
    { v with is_verified := true } hfindv1 rfl

/-- C3, witness: the double-presentation scenario on the concrete store
`dbA` with the fresh token 42 of the unverified `userA`. -/
theorem claim_C3_witness :
    (EmailVerificationView.get 0 dbA 42).2 = verifiedSuccessResponse userA.email ∧
    (EmailVerificationView.get 0 dbA 42).1.findUserById verifA.userId =
      some { userA with email_verified := true, is_active := true } ∧
    (EmailVerificationView.get 0 dbA 42).1.findVerification 42 =
      some { verifA with is_verified := true } ∧
    EmailVerificationView.get 5 (EmailVerificationView.get 0 dbA 42).1 42 =
      ((EmailVerificationView.get 0 dbA 42).1, alreadyVerifiedResponse) :=
  claim_C3_double_verification 0 5 dbA 42 verifA userA (by decide) (by decide)
    (by decide) (by decide)

/-- C4: `can_reset()` holds exactly when the token is unused and the clock
has not passed `expires_at`; and a validated reset request whose token
fails `can_reset()` leaves the whole store — in particular every stored
password hash — unchanged, answering with the already-used error when the
token is used and with the expired error otherwise. -/
theorem claim_C4_reset_guard :
    (∀ (now : Nat) (r : PasswordReset),
      r.can_reset now = true ↔ (r.is_used = false ∧ now ≤ r.expires_at)) ∧
    (∀ (now : Nat) (db : DB) (tok : Nat) (pw c : String) (r : PasswordReset),
      db.findReset tok = some r →
      r.can_reset now = false →
      validate_password pw = true → pw = c →
      (ResetPasswordView.post now db tok pw c).1 = db ∧
      (r.is_used = true →
        (ResetPasswordView.post now db tok pw c).2 = alreadyUsedResponse) ∧
      (r.is_used = false →
        (ResetPasswordView.post now db tok pw c).2 = expiredResetResponse)) := by
  constructor
  · intro now r
    simp [PasswordReset.can_reset, PasswordReset.is_expired, Nat.not_lt]
  · intro now db tok pw c r hfind hcant hval hconf
    have hguard : (validate_password pw && (pw == c)) = true := by
      rw [hval, hconf]
      simp
    cases hused : r.is_used with
    | true =>
      have hpost : ResetPasswordView.post now db tok pw c = (db, alreadyUsedResponse) := by
        unfold ResetPasswordView.post
        rw [hguard]
        simp only [Bool.not_true, Bool.false_eq_true, if_false]
        rw [hfind]
        simp [hused]
      exact ⟨by rw [hpost], fun _ => by rw [hpost],
        fun habs => absurd habs (by decide)⟩
    | false =>
      have hexp : r.is_expired now = true := by
        have := hcant
        unfold PasswordReset.can_reset at this
        rw [hused] at this
        simpa using this
      have hpost : ResetPasswordView.post now db tok pw c = (db, expiredResetResponse) := by
        unfold ResetPasswordView.post
        rw [hguard]
        simp only [Bool.not_true, Bool.false_eq_true, if_false]
        rw [hfind]
        simp [hused, hexp]
      exact ⟨by rw [hpost],
        fun habs => absurd habs (by decide),
        fun _ => by rw [hpost]⟩

/-- C4, witness: the concrete already-used token 50 of `dbReset` at time 0
and the still-live token 51 at time 9999 (past its one-hour expiry). -/
theorem claim_C4_witness :
    (resetUsed.can_reset 0 = true ↔ (resetUsed.is_used = false ∧ 0 ≤ resetUsed.expires_at)) ∧
    (ResetPasswordView.post 0 dbReset 50 "NewPass99" "NewPass99").1 = dbReset ∧
    (resetUsed.is_used = true →
      (ResetPasswordView.post 0 dbReset 50 "NewPass99" "NewPass99").2 = alreadyUsedResponse) ∧
    (ResetPasswordView.post 9999 dbReset 51 "NewPass99" "NewPass99").1 = dbReset ∧
    (resetFresh.is_used = false →
      (ResetPasswordView.post 9999 dbReset 51 "NewPass99" "NewPass99").2 = expiredResetResponse) := by
  refine ⟨claim_C4_reset_guard.1 0 resetUsed, ?_, ?_, ?_, ?_⟩
  · exact (claim_C4_reset_guard.2 0 dbReset 50 "NewPass99" "NewPass99" resetUsed
      (by decide) (by decide) (by decide) rfl).1
  · exact (claim_C4_reset_guard.2 0 dbReset 50 "NewPass99" "NewPass99" resetUsed
      (by decide) (by decide) (by decide) rfl).2.1
  · exact (claim_C4_reset_guard.2 9999 dbReset 51 "NewPass99" "NewPass99" resetFresh
      (by decide) (by decide) (by decide) rfl).1
  · exact (claim_C4_reset_guard.2 9999 dbReset 51 "NewPass99" "NewPass99" resetFresh
      (by decide) (by decide) (by decide) rfl).2.2

/-- A concrete registration request used by the C5 witness. -/
def regInput : RegistrationInput :=
  { email := "new@x.com", password := "Passw0rd1", confirm_password := "Passw0rd1",
    first_name := "New", last_name := "User", phone_number := "",
    user_type := "pet_owner" }

/-- C5: a registration that passes serializer validation appends exactly one
new user, created with `is_active = false` and `email_verified = false`, and
issues exactly one verification token for the fresh user id, whose
`expires_at` is its creation time plus 24 hours. -/
theorem claim_C5_registration (now : Nat) (db : DB) (inp : RegistrationInput)
    (uid tok : Nat) (sent : Bool)
    (hvalid : UserRegistrationSerializer.is_valid db inp = true)
    (hfresh : ∀ v ∈ db.verifications, (v.userId == uid) = false) :
    (UserRegistrationView.post now db inp uid tok sent).1.users =
      db.users ++ [UserRegistrationSerializer.create inp uid] ∧
    (UserRegistrationSerializer.create inp uid).is_active = false ∧
    (UserRegistrationSerializer.create inp uid).email_verified = false ∧
    (UserRegistrationView.post now db inp uid tok sent).1.verifications.filter
        (fun v => v.userId == uid) = [EmailVerification.create now uid tok] ∧
    (EmailVerification.create now uid tok).expires_at =
      (EmailVerification.create now uid tok).created_at + 24 * 3600 := by
  have hpost : UserRegistrationView.post now db inp uid tok sent =
      ({ db with
          users := db.users ++ [UserRegistrationSerializer.create inp uid],
          verifications := EmailVerification.create now uid tok :: db.verifications },
       registrationSuccessResponse (UserRegistrationSerializer.create inp uid).email sent) := by
    unfold UserRegistrationView.post
    rw [hvalid]
    simp
  have hnil : db.verifications.filter (fun v => v.userId == uid) = [] :=
    List.filter_eq_nil_iff.mpr (fun v hv => by simp [hfresh v hv])
  have hhead : ((EmailVerification.create now uid tok).userId == uid) = true := by
    simp [EmailVerification.create]
  refine ⟨by rw [hpost], rfl, rfl, ?_, rfl⟩
  rw [hpost]
  show (EmailVerification.create now uid tok :: db.verifications).filter
      (fun v => v.userId == uid) = [EmailVerification.create now uid tok]
  rw [List.filter_cons]
  simp [hhead, hnil]

/-- C5, witness: registering `regInput` against the concrete store `dbA`
with fresh user id 9 and token 77. -/
theorem claim_C5_witness :
    (UserRegistrationView.post 1000 dbA regInput 9 77 true).1.users =
      dbA.users ++ [UserRegistrationSerializer.create regInput 9] ∧
    (UserRegistrationSerializer.create regInput 9).is_active = false ∧
    (UserRegistrationSerializer.create regInput 9).email_verified = false ∧
    (UserRegistrationView.post 1000 dbA regInput 9 77 true).1.verifications.filter
        (fun v => v.userId == 9) = [EmailVerification.create 1000 9 77] ∧
    (EmailVerification.create 1000 9 77).expires_at =
      (EmailVerification.create 1000 9 77).created_at + 24 * 3600 :=
  claim_C5_registration 1000 dbA regInput 9 77 true (by decide)
    (by decide)

/-- C6: for a found user, an unverified email yields the unverified-email
error even with the correct password; a verified but deactivated account
yields the deactivated error; a verified, active account with a wrong
password yields the invalid-credentials response; and an unknown email
yields that very same invalid-credentials response, so the two
credential-failure cases are identical. -/
theorem claim_C6_login_gating (now : Nat) (db : DB) (e p : String) :
    (∀ u, db.findUserByEmail (normalizeEmail e) = some u →
      (u.email_verified = false → check_password u p = true →
        UserLoginView.post now db e p = (db, unverifiedEmailResponse)) ∧
      (u.email_verified = true → u.is_active = false →
        UserLoginView.post now db e p = (db, deactivatedResponse)) ∧
      (u.email_verified = true → u.is_active = true → check_password u p = false →
        UserLoginView.post now db e p = (db, invalidCredentialsResponse))) ∧
    (db.findUserByEmail (normalizeEmail e) = none →
      UserLoginView.post now db e p = (db, invalidCredentialsResponse)) := by
  constructor
  · intro u hu
    refine ⟨fun hver _ => ?_, fun hver hact => ?_, fun hver hact hpw => ?_⟩
    · simp [UserLoginView.post, hu, hver]
    · simp [UserLoginView.post, hu, hver, hact]
    · simp [UserLoginView.post, hu, hver, hact, hpw]
  · intro hnone
    simp [UserLoginView.post, hnone]

/-- C6, witness: the four login outcomes on the concrete store `dbLogin`
(unverified `userA`, deactivated `userD`, wrong password for `userV`,
unknown email). -/
theorem claim_C6_witness :
    UserLoginView.post 0 dbLogin "a@x.com" "Passw0rd1" = (dbLogin, unverifiedEmailResponse) ∧
    UserLoginView.post 0 dbLogin "d@x.com" "Passw0rd1" = (dbLogin, deactivatedResponse) ∧
    UserLoginView.post 0 dbLogin "v@x.com" "WrongPass9" = (dbLogin, invalidCredentialsResponse) ∧
    UserLoginView.post 0 dbLogin "ghost@x.com" "Passw0rd1" = (dbLogin, invalidCredentialsResponse) := by
  refine ⟨?_, ?_, ?_, ?_⟩
  · exact (((claim_C6_login_gating 0 dbLogin "a@x.com" "Passw0rd1").1 userA
      (by decide)).1) (by decide) (by decide)
  · exact (((claim_C6_login_gating 0 dbLogin "d@x.com" "Passw0rd1").1 userD
      (by decide)).2.1) (by decide) (by decide)
  · exact (((claim_C6_login_gating 0 dbLogin "v@x.com" "WrongPass9").1 userV
      (by decide)).2.2) (by decide) (by decide) (by decide)
  · exact (claim_C6_login_gating 0 dbLogin "ghost@x.com" "Passw0rd1").2 (by decide)

/-- C7: the forgot-password responses for a request whose (normalized)
email belongs to an existing user and a request whose email belongs to no
user are the very same value — same success flag, status, message and
fields — so the response reveals nothing about account existence. -/
theorem claim_C7_forgot_password_hiding (now1 now2 : Nat) (db1 db2 : DB)
    (e1 e2 : String) (t1 t2 : Nat) (u : UserRec)
    (h1 : db1.findUserByEmail (normalizeEmail e1) = some u)
    (h2 : db2.findUserByEmail (normalizeEmail e2) = none) :
    (ForgotPasswordView.post now1 db1 e1 t1).2 =
      (ForgotPasswordView.post now2 db2 e2 t2).2 := by
  simp [ForgotPasswordView.post, h1, h2]

/-- C7, witness: `dbLogin` holds `v@x.com` while `dbEmpty` holds nothing;
the two forgot-password responses coincide. -/
theorem claim_C7_witness :
    (ForgotPasswordView.post 0 dbLogin "v@x.com" 60).2 =
      (ForgotPasswordView.post 0 dbEmpty "v@x.com" 61).2 :=
  claim_C7_forgot_password_hiding 0 0 dbLogin dbEmpty "v@x.com" "v@x.com" 60 61
    userV (by decide) (by decide)

/-- C8, divergence at a concrete store: the resend-verification responses
for the existing unverified `a@x.com` and the unknown `ghost@x.com` are
both generic successes (status 200, `success = true`), but their message
texts and their field payloads differ, so the response does distinguish
account existence despite the endpoint's stated intent not to reveal it. -/
theorem claim_C8_resend_divergence :
    (ResendVerificationEmailView.post 0 dbA "a@x.com" 7 true).2.success = true ∧
    (ResendVerificationEmailView.post 0 dbA "ghost@x.com" 7 true).2.success = true ∧
    (ResendVerificationEmailView.post 0 dbA "a@x.com" 7 true).2.status = 200 ∧
    (ResendVerificationEmailView.post 0 dbA "ghost@x.com" 7 true).2.status = 200 ∧
    (ResendVerificationEmailView.post 0 dbA "a@x.com" 7 true).2.message ≠
      (ResendVerificationEmailView.post 0 dbA "ghost@x.com" 7 true).2.message ∧
    (ResendVerificationEmailView.post 0 dbA "a@x.com" 7 true).2.fields ≠
      (ResendVerificationEmailView.post 0 dbA "ghost@x.com" 7 true).2.fields := by
  decide

/-- C9: resending to a found, already-verified user yields the
already-verified error and leaves the store unchanged; resending to a
found, unverified user deletes every verification token of that user
before issuing one fresh token, so afterwards exactly one token for that
user is outstanding, and the response is the resend success response. -/
theorem claim_C9_resend (now : Nat) (db : DB) (e : String) (tok : Nat)
    (sent : Bool) (u : UserRec)
    (hne : (e == "") = false)
    (hu : db.findUserByEmail (normalizeEmail e) = some u) :
    (u.email_verified = true →
      ResendVerificationEmailView.post now db e tok sent =
        (db, resendAlreadyVerifiedResponse)) ∧
    (u.email_verified = false →
      (ResendVerificationEmailView.post now db e tok sent).1.verifications.filter
          (fun v => v.userId == u.id) = [EmailVerification.create now u.id tok] ∧
      (ResendVerificationEmailView.post now db e tok sent).2 =
        resendSuccessResponse u.email sent) := by
  constructor
  · intro hver
    unfold ResendVerificationEmailView.post
    rw [hne]
    simp only [Bool.false_eq_true, if_false]
    rw [hu]
    simp [hver]
  · intro hver
    have hpost : ResendVerificationEmailView.post now db e tok sent =
        ({ db with verifications := EmailVerification.create now u.id tok ::
            db.verifications.filter (fun v => !(v.userId == u.id)) },
         resendSuccessResponse u.email sent) := by
      unfold ResendVerificationEmailView.post
      rw [hne]
      simp only [Bool.false_eq_true, if_false]
      rw [hu]
      simp [hver]
    have hnil : (db.verifications.filter (fun v => !(v.userId == u.id))).filter
        (fun v => v.userId == u.id) = [] :=
      filter_after_delete (fun v => v.userId == u.id) db.verifications
    refine ⟨?_, by rw [hpost]⟩
    rw [hpost]
    show (EmailVerification.create now u.id tok ::
        db.verifications.filter (fun v => !(v.userId == u.id))).filter
        (fun v => v.userId == u.id) = [EmailVerification.create now u.id tok]
    rw [List.filter_cons]
    simp [EmailVerification.create, hnil]

/-- C9, witness: resending for the verified `userV` of `dbLogin` and for
the unverified `userA` of `dbA` (who already holds token 42). -/
theorem claim_C9_witness :
    (ResendVerificationEmailView.post 0 dbLogin "v@x.com" 88 true =
      (dbLogin, resendAlreadyVerifiedResponse)) ∧
    ((ResendVerificationEmailView.post 0 dbA "a@x.com" 88 true).1.verifications.filter
        (fun v => v.userId == userA.id) = [EmailVerification.create 0 userA.id 88] ∧
     (ResendVerificationEmailView.post 0 dbA "a@x.com" 88 true).2 =
       resendSuccessResponse userA.email true) := by
  refine ⟨?_, ?_⟩
  · exact (claim_C9_resend 0 dbLogin "v@x.com" 88 true userV (by decide)
      (by decide)).1 (by decide)
  · exact (claim_C9_resend 0 dbA "a@x.com" 88 true userA (by decide)
      (by decide)).2 (by decide)

/-- C10: for a found user whose email is unverified, login answers with the
unverified-email error whatever password is presented — the gate precedes
the password check, so the outcome is independent of the password — and
that error differs from the invalid-credentials response, so the response
reveals the account's existence to a caller who does not know the
password. -/
theorem claim_C10_unverified_probe (now : Nat) (db : DB) (e p1 p2 : String)
    (u : UserRec)
    (hu : db.findUserByEmail (normalizeEmail e) = some u)
    (hver : u.email_verified = false) :
    UserLoginView.post now db e p1 = (db, unverifiedEmailResponse) ∧
    UserLoginView.post now db e p1 = UserLoginView.post now db e p2 ∧
    unverifiedEmailResponse ≠ invalidCredentialsResponse := by
  have h1 : UserLoginView.post now db e p1 = (db, unverifiedEmailResponse) := by
    simp [UserLoginView.post, hu, hver]
  have h2 : UserLoginView.post now db e p2 = (db, unverifiedEmailResponse) := by
    simp [UserLoginView.post, hu, hver]
  exact ⟨h1, h1.trans h2.symm, by decide⟩

/-- C10, witness: probing the unverified `userA` with two different wrong
passwords yields the same unverified-email response both times. -/
theorem claim_C10_witness :
    UserLoginView.post 0 dbLogin "a@x.com" "TotallyWrong1" =
      (dbLogin, unverifiedEmailResponse) ∧
    UserLoginView.post 0 dbLogin "a@x.com" "TotallyWrong1" =
      UserLoginView.post 0 dbLogin "a@x.com" "Other2" ∧
    unverifiedEmailResponse ≠ invalidCredentialsResponse :=
  claim_C10_unverified_probe 0 dbLogin "a@x.com" "TotallyWrong1" "Other2" userA
    (by decide) (by decide)
